import Mathlib

/-
  Verification of the TGUI widget toolkit core against its specification.

  The development shallowly embeds the relevant C++ code:
  * `src/src/TGUI/HorizontalLayout.cpp` (the sizing algorithm of the layout engine),
  * `src/include/TGUI/Group.hpp` (the inline template members `add`, `get`, `copy`),
  * `src/src/TGUI/ChildWindow.cpp` (event handling, drag, close, guards).

  Machine floats are modelled as exact rationals, except that a value produced by a
  division by zero (IEEE: NaN or an infinity) is modelled as `none : Option ℚ` and
  propagated through arithmetic, so that non-finite geometry is observable.
-/

namespace TGUI

/-- A float value: `some q` is the finite value `q`; `none` stands for a non-finite
IEEE result (NaN or an infinity), produced only by a division by zero here. -/
abbrev Flt := Option ℚ

/-- Float addition; a non-finite operand makes the result non-finite. -/
def fadd : Flt → Flt → Flt
  | some a, some b => some (a + b)
  | _, _ => none

/-- Float multiplication; a non-finite operand makes the result non-finite. -/
def fmul : Flt → Flt → Flt
  | some a, some b => some (a * b)
  | _, _ => none

/-- Float division; dividing by zero gives a non-finite value (IEEE: NaN or ±Inf). -/
def fdiv : Flt → Flt → Flt
  | some a, some b => if b = 0 then none else some (a / b)
  | _, _ => none

@[simp] theorem fadd_some (a b : ℚ) : fadd (some a) (some b) = some (a + b) := rfl

@[simp] theorem fmul_some (a b : ℚ) : fmul (some a) (some b) = some (a * b) := rfl

theorem fdiv_some {b : ℚ} (hb : b ≠ 0) (a : ℚ) : fdiv (some a) (some b) = some (a / b) := by
  simp [fdiv, hb]

/-! ## HorizontalLayout (`src/src/TGUI/HorizontalLayout.cpp`)

One child of the layout: its entry in `m_widgetsRatio` and in `m_widgetsFixedSizes`
(the three parallel vectors `m_layoutWidgets`, `m_widgetsRatio`, `m_widgetsFixedSizes`
always have equal length, so they are modelled as one list of records). -/

structure LayoutChild where
  ratio : ℚ
  fixedSize : ℚ
deriving DecidableEq, Repr

/-- The state of a `HorizontalLayout` that `updateWidgetPositions` reads:
`m_size` and the per-child sizing policies. -/
structure HorizontalLayout where
  sizeX : ℚ
  sizeY : ℚ
  children : List LayoutChild
deriving DecidableEq, Repr

/-- The geometry `updateWidgetPositions` writes to one child widget:
`setPosition(posX, 0.f)` and `setSize(sizeX, sizeY)`.  The values along the
layout axis can be non-finite (division by zero), hence `Flt`. -/
structure Geom where
  posX : Flt
  posY : ℚ
  sizeX : Flt
  sizeY : ℚ
deriving DecidableEq, Repr

/-- First loop of `updateWidgetPositions`:
`sumRatio` accumulates `m_widgetsRatio[i]` over the children with
`m_widgetsFixedSizes[i] == 0`. -/
def sumRatio (cs : List LayoutChild) : ℚ :=
  cs.foldl (fun acc c => if c.fixedSize = 0 then acc + c.ratio else acc) 0

/-- `std::accumulate(m_widgetsFixedSizes.begin(), m_widgetsFixedSizes.end(), 0.f)`. -/
def sumFixedSize (cs : List LayoutChild) : ℚ :=
  cs.foldl (fun acc c => acc + c.fixedSize) 0

/-- The main loop of `updateWidgetPositions`, with the loop state
(`currentRatio`, `currentOffset`) as accumulators.  `currentRatio` is `Flt`
because it accumulates `m_widgetsRatio[i] / sumRatio`, an unguarded division.
The branch condition `if (m_widgetsFixedSizes[i])` is C++ truthiness:
the fixed branch is taken exactly when the stored fixed size is nonzero. -/
def updateLoop (sx sy sumFixed sumR : ℚ) :
    List LayoutChild → Flt → ℚ → List Geom
  | [], _, _ => []
  | c :: cs, curRatio, curOffset =>
    { posX := fadd (fmul (some (sx - sumFixed)) curRatio) (some curOffset)
      posY := 0
      sizeX := if c.fixedSize ≠ 0 then some c.fixedSize
               else fdiv (fmul (some (sx - sumFixed)) (some c.ratio)) (some sumR)
      sizeY := sy } ::
    if c.fixedSize ≠ 0 then
      updateLoop sx sy sumFixed sumR cs curRatio (curOffset + c.fixedSize)
    else
      updateLoop sx sy sumFixed sumR cs
        (fadd curRatio (fdiv (some c.ratio) (some sumR))) curOffset

/-- `HorizontalLayout::updateWidgetPositions`: computes the geometry assigned to
each child, in child order. -/
def updateWidgetPositions (l : HorizontalLayout) : List Geom :=
  updateLoop l.sizeX l.sizeY (sumFixedSize l.children) (sumRatio l.children)
    l.children (some 0) 0

/-- Reference loop used in proofs: when `sumR ≠ 0` no division by zero occurs and
every computed value is finite; this loop computes those finite values directly. -/
def finLoop (sx sy sumFixed sumR : ℚ) :
    List LayoutChild → ℚ → ℚ → List Geom
  | [], _, _ => []
  | c :: cs, curRatio, curOffset =>
    { posX := some ((sx - sumFixed) * curRatio + curOffset)
      posY := 0
      sizeX := if c.fixedSize ≠ 0 then some c.fixedSize
               else some ((sx - sumFixed) * c.ratio / sumR)
      sizeY := sy } ::
    if c.fixedSize ≠ 0 then
      finLoop sx sy sumFixed sumR cs curRatio (curOffset + c.fixedSize)
    else
      finLoop sx sy sumFixed sumR cs (curRatio + c.ratio / sumR) curOffset

theorem updateLoop_eq_finLoop (sx sy sumFixed : ℚ) {sumR : ℚ} (hS : sumR ≠ 0) :
    ∀ (cs : List LayoutChild) (cr co : ℚ),
      updateLoop sx sy sumFixed sumR cs (some cr) co = finLoop sx sy sumFixed sumR cs cr co := by
  intro cs
  induction cs with
  | nil => intro cr co; rfl
  | cons c cs ih =>
    intro cr co
    by_cases hc : c.fixedSize = 0
    · simp [updateLoop, finLoop, hc, fdiv, hS, ih, mul_div_assoc]
    · simp [updateLoop, finLoop, hc, ih]

theorem finLoop_length (sx sy sumFixed sumR : ℚ) :
    ∀ (cs : List LayoutChild) (cr co : ℚ),
      (finLoop sx sy sumFixed sumR cs cr co).length = cs.length := by
  intro cs
  induction cs with
  | nil => intro cr co; rfl
  | cons c cs ih =>
    intro cr co
    by_cases hc : c.fixedSize = 0 <;> simp [finLoop, hc, ih]

theorem finLoop_cons (sx sy sumFixed sumR : ℚ) (c : LayoutChild) (cs : List LayoutChild)
    (cr co : ℚ) :
    finLoop sx sy sumFixed sumR (c :: cs) cr co =
      { posX := some ((sx - sumFixed) * cr + co)
        posY := 0
        sizeX := if c.fixedSize ≠ 0 then some c.fixedSize
                 else some ((sx - sumFixed) * c.ratio / sumR)
        sizeY := sy } ::
      (if c.fixedSize ≠ 0 then finLoop sx sy sumFixed sumR cs cr (co + c.fixedSize)
       else finLoop sx sy sumFixed sumR cs (cr + c.ratio / sumR) co) := rfl

theorem sumRatio_foldl_acc :
    ∀ (cs : List LayoutChild) (a : ℚ),
      cs.foldl (fun acc c => if c.fixedSize = 0 then acc + c.ratio else acc) a =
        a + cs.foldl (fun acc c => if c.fixedSize = 0 then acc + c.ratio else acc) 0 := by
  intro cs
  induction cs with
  | nil => intro a; simp
  | cons c cs ih =>
    intro a
    rw [List.foldl_cons, List.foldl_cons, ih,
      ih (if c.fixedSize = 0 then (0 : ℚ) + c.ratio else 0)]
    by_cases hc : c.fixedSize = 0
    · simp only [hc, if_true, if_pos]
      ring
    · simp only [hc, if_false, if_neg, not_false_iff]
      ring

theorem sumRatio_cons (c : LayoutChild) (cs : List LayoutChild) :
    sumRatio (c :: cs) = (if c.fixedSize = 0 then c.ratio else 0) + sumRatio cs := by
  show (c :: cs).foldl (fun acc c => if c.fixedSize = 0 then acc + c.ratio else acc) 0 = _
  rw [List.foldl_cons, sumRatio_foldl_acc]
  by_cases hc : c.fixedSize = 0 <;> simp [hc, sumRatio]

theorem sumFixedSize_foldl_acc :
    ∀ (cs : List LayoutChild) (a : ℚ),
      cs.foldl (fun acc c => acc + c.fixedSize) a =
        a + cs.foldl (fun acc c => acc + c.fixedSize) 0 := by
  intro cs
  induction cs with
  | nil => intro a; simp
  | cons c cs ih =>
    intro a
    rw [List.foldl_cons, List.foldl_cons, ih, ih ((0 : ℚ) + c.fixedSize)]
    ring

theorem sumFixedSize_cons (c : LayoutChild) (cs : List LayoutChild) :
    sumFixedSize (c :: cs) = c.fixedSize + sumFixedSize cs := by
  show (c :: cs).foldl (fun acc c => acc + c.fixedSize) 0 = _
  rw [List.foldl_cons, sumFixedSize_foldl_acc]
  simp [sumFixedSize]

theorem sumRatio_eq_filter_sum :
    ∀ cs : List LayoutChild,
      sumRatio cs = ((cs.filter fun c => c.fixedSize = 0).map LayoutChild.ratio).sum := by
  intro cs
  induction cs with
  | nil => rfl
  | cons c cs ih =>
    rw [sumRatio_cons]
    by_cases hc : c.fixedSize = 0 <;> simp [List.filter_cons, hc, ih]

theorem finLoop_get (sx sy sumFixed sumR : ℚ) :
    ∀ (cs : List LayoutChild) (cr co : ℚ) (i : ℕ) (c : LayoutChild),
      cs[i]? = some c →
      ∃ g, (finLoop sx sy sumFixed sumR cs cr co)[i]? = some g ∧
        g.posY = 0 ∧ g.sizeY = sy ∧
        g.sizeX = (if c.fixedSize = 0 then some ((sx - sumFixed) * c.ratio / sumR)
                   else some c.fixedSize) := by
  intro cs
  induction cs with
  | nil => intro cr co i c h; simp at h
  | cons c0 cs ih =>
    intro cr co i c h
    match i with
    | 0 =>
      rw [List.getElem?_cons_zero, Option.some.injEq] at h
      subst h
      rw [finLoop_cons]
      refine ⟨_, List.getElem?_cons_zero, rfl, rfl, ?_⟩
      by_cases hc : c0.fixedSize = 0 <;> simp [hc]
    | j + 1 =>
      rw [List.getElem?_cons_succ] at h
      rw [finLoop_cons]
      rw [List.getElem?_cons_succ]
      by_cases hc : c0.fixedSize = 0
      · rw [if_neg (not_not_intro hc)]
        exact ih _ _ j c h
      · rw [if_pos hc]
        exact ih _ _ j c h

theorem finLoop_head_posX (sx sy sumFixed sumR : ℚ) (c : LayoutChild)
    (cs : List LayoutChild) (cr co : ℚ) (g : Geom)
    (h : (finLoop sx sy sumFixed sumR (c :: cs) cr co)[0]? = some g) :
    g.posX = some ((sx - sumFixed) * cr + co) := by
  rw [finLoop_cons] at h
  simp only [List.getElem?_cons_zero, Option.some.injEq] at h
  subst h
  rfl

theorem finLoop_step (sx sy sumFixed sumR : ℚ) :
    ∀ (cs : List LayoutChild) (cr co : ℚ) (i : ℕ) (g g' : Geom),
      (finLoop sx sy sumFixed sumR cs cr co)[i]? = some g →
      (finLoop sx sy sumFixed sumR cs cr co)[i+1]? = some g' →
      g'.posX = fadd g.posX g.sizeX := by
  intro cs
  induction cs with
  | nil => intro cr co i g g' h _; simp [finLoop] at h
  | cons c0 cs ih =>
    intro cr co i g g' h h'
    rw [finLoop_cons] at h h'
    match i with
    | 0 =>
      rw [List.getElem?_cons_zero, Option.some.injEq] at h
      rw [List.getElem?_cons_succ] at h'
      subst h
      show g'.posX = fadd (some ((sx - sumFixed) * cr + co))
        (if c0.fixedSize ≠ 0 then some c0.fixedSize
         else some ((sx - sumFixed) * c0.ratio / sumR))
      by_cases hc : c0.fixedSize = 0
      · rw [if_neg (not_not_intro hc)] at h' ⊢
        match cs, h' with
        | [], h' => simp [finLoop] at h'
        | c1 :: cs', h' =>
          rw [finLoop_head_posX sx sy sumFixed sumR c1 cs' _ _ g' h', fadd_some]
          congr 1
          ring
      · rw [if_pos hc] at h' ⊢
        match cs, h' with
        | [], h' => simp [finLoop] at h'
        | c1 :: cs', h' =>
          rw [finLoop_head_posX sx sy sumFixed sumR c1 cs' _ _ g' h', fadd_some]
          congr 1
          ring
    | j + 1 =>
      rw [List.getElem?_cons_succ] at h h'
      by_cases hc : c0.fixedSize = 0
      · rw [if_neg (not_not_intro hc)] at h h'
        exact ih _ _ j g g' h h'
      · rw [if_pos hc] at h h'
        exact ih _ _ j g g' h h'

theorem finLoop_first_posX (sx sy sumFixed sumR : ℚ) (cs : List LayoutChild) (g : Geom)
    (h : (finLoop sx sy sumFixed sumR cs 0 0)[0]? = some g) : g.posX = some 0 := by
  match cs, h with
  | [], h => simp [finLoop] at h
  | c :: cs', h =>
    rw [finLoop_head_posX _ _ _ _ _ _ _ _ _ h]
    norm_num

/-- The total width handed to the ratio-sized children: the fold of `fadd` over the
`sizeX` values of the children taking the ratio branch, paired with their policies. -/
def ratioChildrenSize (cs : List LayoutChild) (gs : List Geom) : Flt :=
  (cs.zip gs).foldr (fun p acc => if p.1.fixedSize = 0 then fadd p.2.sizeX acc else acc)
    (some 0)

theorem ratioChildrenSize_cons (c : LayoutChild) (cs : List LayoutChild) (px : Flt)
    (py : ℚ) (sxx : Flt) (syy : ℚ) (gs : List Geom) :
    ratioChildrenSize (c :: cs)
        ({ posX := px, posY := py, sizeX := sxx, sizeY := syy } :: gs) =
      if c.fixedSize = 0 then fadd sxx (ratioChildrenSize cs gs)
      else ratioChildrenSize cs gs := rfl

theorem ratioChildrenSize_finLoop (sx sy sumFixed sumR : ℚ) :
    ∀ (cs : List LayoutChild) (cr co : ℚ),
      ratioChildrenSize cs (finLoop sx sy sumFixed sumR cs cr co) =
        some ((sx - sumFixed) * sumRatio cs / sumR) := by
  intro cs
  induction cs with
  | nil =>
    intro cr co
    simp [ratioChildrenSize, finLoop, sumRatio]
  | cons c cs ih =>
    intro cr co
    rw [finLoop_cons, ratioChildrenSize_cons, sumRatio_cons]
    by_cases hc : c.fixedSize = 0
    · have hne : ¬c.fixedSize ≠ 0 := not_not_intro hc
      rw [if_pos hc, if_neg hne, if_neg hne, ih, fadd_some, if_pos hc]
      congr 1
      ring
    · rw [if_neg hc, if_pos hc, ih, if_neg hc]
      congr 1
      ring

/-- Claim C1: `updateWidgetPositions` walks the children in order with an accumulated
offset: a child with a nonzero fixed size gets exactly that size along the axis; a
ratio child gets `(E - sumFixedSize) * (ratio / sumRatio)`; each child starts where
the previous one ended (offset advances by the assigned size, starting from `0`);
and every child's cross-axis size is the container's full `sizeY` (its cross-axis
position being `0`). -/
theorem hlayout_updateWidgetPositions_spec (l : HorizontalLayout)
    (hS : sumRatio l.children ≠ 0) :
    (updateWidgetPositions l).length = l.children.length ∧
    (∀ (i : ℕ) (c : LayoutChild), l.children[i]? = some c →
      ∃ g : Geom, (updateWidgetPositions l)[i]? = some g ∧
        g.posY = 0 ∧ g.sizeY = l.sizeY ∧
        (c.fixedSize ≠ 0 → g.sizeX = some c.fixedSize) ∧
        (c.fixedSize = 0 →
          g.sizeX = some ((l.sizeX - sumFixedSize l.children) *
            (c.ratio / sumRatio l.children)))) ∧
    (∀ g : Geom, (updateWidgetPositions l)[0]? = some g → g.posX = some 0) ∧
    (∀ (i : ℕ) (g g' : Geom), (updateWidgetPositions l)[i]? = some g →
      (updateWidgetPositions l)[i + 1]? = some g' → g'.posX = fadd g.posX g.sizeX) := by
  rw [updateWidgetPositions, updateLoop_eq_finLoop _ _ _ hS]
  refine ⟨finLoop_length _ _ _ _ _ _ _, ?_, ?_, ?_⟩
  · intro i c hc
    obtain ⟨g, hg, h1, h2, h3⟩ := finLoop_get _ _ _ _ _ _ _ i c hc
    refine ⟨g, hg, h1, h2, ?_, ?_⟩
    · intro hne
      rw [h3, if_neg hne]
    · intro heq
      rw [h3, if_pos heq, mul_div_assoc]
  · intro g hg
    exact finLoop_first_posX _ _ _ _ _ _ hg
  · intro i g g' hg hg'
    exact finLoop_step _ _ _ _ _ _ _ i g g' hg hg'

/-- The spec scenario layout: extent 300 along the axis, two children with ratios
1 and 2 and no fixed sizes. -/
def demoLayout : HorizontalLayout :=
  { sizeX := 300, sizeY := 40
    children := [{ ratio := 1, fixedSize := 0 }, { ratio := 2, fixedSize := 0 }] }

/-- Witness for claim C1: the hypothesis `sumRatio ≠ 0` holds on `demoLayout`. -/
theorem hlayout_updateWidgetPositions_spec_witness :
    sumRatio demoLayout.children ≠ 0 ∧
      (updateWidgetPositions demoLayout).length = demoLayout.children.length :=
  ⟨by norm_num [sumRatio, demoLayout],
    (hlayout_updateWidgetPositions_spec demoLayout (by norm_num [sumRatio, demoLayout])).1⟩

/-- Claim C6: whenever the ratio sum is positive, the ratio children's computed
sizes together with all the fixed sizes cover the container extent exactly. -/
theorem hlayout_sizes_sum_to_extent (l : HorizontalLayout)
    (hS : 0 < sumRatio l.children) :
    fadd (ratioChildrenSize l.children (updateWidgetPositions l))
      (some (sumFixedSize l.children)) = some l.sizeX := by
  have hne : sumRatio l.children ≠ 0 := ne_of_gt hS
  rw [updateWidgetPositions, updateLoop_eq_finLoop _ _ _ hne,
    ratioChildrenSize_finLoop, fadd_some]
  congr 1
  rw [mul_div_assoc, div_self hne, mul_one]
  ring

/-- Witness for claim C6: on `demoLayout` (extent 300, ratios 1 and 2) the computed
sizes 100 and 200 plus the fixed total 0 give back 300. -/
theorem hlayout_sizes_sum_to_extent_witness :
    0 < sumRatio demoLayout.children ∧
      fadd (ratioChildrenSize demoLayout.children (updateWidgetPositions demoLayout))
        (some (sumFixedSize demoLayout.children)) = some demoLayout.sizeX :=
  ⟨by norm_num [sumRatio, demoLayout],
    hlayout_sizes_sum_to_extent demoLayout (by norm_num [sumRatio, demoLayout])⟩

/-- Claim C10: a child whose stored fixed size is exactly `0` is classified as
ratio-sized: it is sized by the ratio formula, and the ratio sum is exactly the sum
of the ratios of the children with stored fixed size `0`. -/
theorem hlayout_zero_fixed_is_ratio_sized (l : HorizontalLayout) (i : ℕ)
    (c : LayoutChild) (hc : l.children[i]? = some c) (h0 : c.fixedSize = 0)
    (hS : sumRatio l.children ≠ 0) :
    (∃ g : Geom, (updateWidgetPositions l)[i]? = some g ∧
      g.sizeX = some ((l.sizeX - sumFixedSize l.children) * c.ratio /
        sumRatio l.children)) ∧
    sumRatio l.children =
      ((l.children.filter fun c => c.fixedSize = 0).map LayoutChild.ratio).sum := by
  constructor
  · rw [updateWidgetPositions, updateLoop_eq_finLoop _ _ _ hS]
    obtain ⟨g, hg, _, _, h3⟩ := finLoop_get _ _ _ _ _ _ _ i c hc
    refine ⟨g, hg, ?_⟩
    rw [h3, if_pos h0]
  · exact sumRatio_eq_filter_sum l.children

/-- A layout mixing a zero-fixed-size (hence ratio-sized) child with a fixed child. -/
def mixedLayout : HorizontalLayout :=
  { sizeX := 100, sizeY := 50
    children := [{ ratio := 3, fixedSize := 0 }, { ratio := 1, fixedSize := 20 }] }

/-- Witness for claim C10: in `mixedLayout`, the child with stored fixed size `0`
and ratio 3 is sized by the ratio formula: `(100 - 20) * 3 / 3 = 80`. -/
theorem hlayout_zero_fixed_is_ratio_sized_witness :
    mixedLayout.children[0]? = some { ratio := 3, fixedSize := 0 } ∧
      sumRatio mixedLayout.children ≠ 0 ∧
      ((∃ g : Geom, (updateWidgetPositions mixedLayout)[0]? = some g ∧
        g.sizeX = some ((mixedLayout.sizeX - sumFixedSize mixedLayout.children) *
          LayoutChild.ratio { ratio := 3, fixedSize := 0 } /
            sumRatio mixedLayout.children)) ∧
      sumRatio mixedLayout.children =
        ((mixedLayout.children.filter fun c => c.fixedSize = 0).map
          LayoutChild.ratio).sum) :=
  ⟨rfl, by norm_num [sumRatio, mixedLayout],
    hlayout_zero_fixed_is_ratio_sized mixedLayout 0 { ratio := 3, fixedSize := 0 }
      rfl rfl (by norm_num [sumRatio, mixedLayout])⟩

/-- A malformed configuration: one child with fixed size `0` and ratio `0`, so the
ratio sum is `0` and the ratio branch divides by zero. -/
def degenerateLayout : HorizontalLayout :=
  { sizeX := 100, sizeY := 50, children := [{ ratio := 0, fixedSize := 0 }] }

/-- Claim C2 (code bug): there is no divide-by-zero guard in
`updateWidgetPositions`.  On `degenerateLayout` the ratio sum is `0`, the single
child still takes the ratio branch, and its width is the unguarded quotient
`(100 - 0) * 0 / 0` — a non-finite IEEE value (NaN), not a graceful zero width. -/
theorem hlayout_divide_by_zero_unguarded :
    sumRatio degenerateLayout.children = 0 ∧
    updateWidgetPositions degenerateLayout =
      [{ posX := some 0, posY := 0, sizeX := none, sizeY := 50 }] := by
  constructor
  · norm_num [sumRatio, degenerateLayout]
  · norm_num [updateWidgetPositions, updateLoop, degenerateLayout, sumRatio,
      sumFixedSize, fadd, fmul, fdiv]

/-! ## Group (`src/include/TGUI/Group.hpp`)

A `Group` owns an ordered child sequence, kept in the two parallel vectors
`m_EventManager.m_Objects` and `m_ObjName`; every operation pushes to or scans
both in lockstep, so they are modelled as one list of (name, object) pairs.
Heap identity of an object (its address, the value `add`/`copy` return) is
modelled by a counter `nextId` handing out fresh ids: `new` never returns an
address equal to that of a live object. -/

/-- A child widget as far as `Group::add`/`get`/`copy` observe it.
`initObservedParent` records the value of `m_Parent` at the moment the
post-construction hook `initialize()` ran (`none` when it never ran); the C++
hook can read `m_Parent`, so this captures whether the parent was assigned
before initialization. -/
structure Obj where
  id : ℕ
  m_Parent : Option ℕ
  initObservedParent : Option (Option ℕ)
deriving DecidableEq, Repr

/-- The `Group` state touched by `add`/`get`/`copy`. -/
structure Group where
  gid : ℕ
  objects : List (String × Obj)
  nextId : ℕ
deriving DecidableEq, Repr

/-- The scan of `Group::get`: first pair whose stored name compares equal to the
queried name; `NULL` (here `none`) when the scan falls through.  There is no
special case for the empty string in the code. -/
def getFirst (objectName : String) : List (String × Obj) → Option Obj
  | [] => none
  | p :: ps => if p.1 = objectName then some p.2 else getFirst objectName ps

/-- `Group::get<T>(objectName)`. -/
def Group.get (g : Group) (objectName : String) : Option Obj :=
  getFirst objectName g.objects

/-- `Group::add<T>(objectName)`: `new T()`, then `newObject->m_Parent = this`,
then push onto both vectors, then `newObject->initialize()` (which runs on the
stored object, after the parent assignment), then return the new object. -/
def Group.add (g : Group) (objectName : String) : Group × Obj :=
  let newObject : Obj := { id := g.nextId, m_Parent := none, initObservedParent := none }
  let newObject := { newObject with m_Parent := some g.gid }
  let newObject := { newObject with initObservedParent := some newObject.m_Parent }
  ({ g with objects := g.objects ++ [(objectName, newObject)], nextId := g.nextId + 1 },
   newObject)

/-- `Group::copy<T>(oldObject, newObjectName)` (the by-handle overload):
`new T(*oldObject)` — the copy constructor duplicates every field (including
`m_Parent`) into a fresh allocation — then push onto both vectors and return.
Neither `m_Parent` is re-assigned nor `initialize()` invoked. -/
def Group.copy (g : Group) (oldObject : Obj) (newObjectName : String) : Group × Obj :=
  let newObject : Obj := { oldObject with id := g.nextId }
  ({ g with objects := g.objects ++ [(newObjectName, newObject)], nextId := g.nextId + 1 },
   newObject)

theorem getFirst_none_iff (objectName : String) :
    ∀ ps : List (String × Obj),
      getFirst objectName ps = none ↔ ∀ p ∈ ps, p.1 ≠ objectName := by
  intro ps
  induction ps with
  | nil => simp [getFirst]
  | cons p ps ih =>
    by_cases hp : p.1 = objectName
    · simp [getFirst, hp]
    · simp [getFirst, hp, ih]

theorem getFirst_first_match (objectName : String) :
    ∀ (ps : List (String × Obj)) (i : ℕ) (p : String × Obj), ps[i]? = some p →
      p.1 = objectName → (∀ (j : ℕ) (q : String × Obj), j < i → ps[j]? = some q →
        q.1 ≠ objectName) →
      getFirst objectName ps = some p.2 := by
  intro ps
  induction ps with
  | nil => intro i p hp _ _; simp at hp
  | cons q ps ih =>
    intro i p hp hname hbefore
    match i with
    | 0 =>
      rw [List.getElem?_cons_zero, Option.some.injEq] at hp
      subst hp
      rw [getFirst, if_pos hname]
    | j + 1 =>
      rw [List.getElem?_cons_succ] at hp
      have hq : q.1 ≠ objectName :=
        hbefore 0 q (Nat.succ_pos j) List.getElem?_cons_zero
      rw [getFirst, if_neg hq]
      refine ih j p hp hname ?_
      intro k r hk hr
      exact hbefore (k + 1) r (Nat.succ_lt_succ hk) (by rw [List.getElem?_cons_succ]; exact hr)

/-- Claim C3, counterexample part: a group holding one internally-named (empty
name) child. -/
def emptyNameGroup : Group :=
  { gid := 0
    objects := [("", { id := 1, m_Parent := some 0, initObservedParent := some (some 0) })]
    nextId := 2 }

/-- Claim C3 is false as stated: `get` does not special-case the empty string.
Querying `""` on a group whose first child has the empty name returns that
child, not `NULL`. -/
theorem group_get_empty_name_counterexample :
    Group.get emptyNameGroup "" =
      some { id := 1, m_Parent := some 0, initObservedParent := some (some 0) } := rfl

/-- Claim C3 as amended: `get` returns `NULL` exactly when no child's name equals
the queried name, and otherwise returns the first child in insertion order whose
name matches; the empty string receives no special treatment (an empty-string
query returns the first internally-named child when one exists — the header only
warns callers never to do this). -/
theorem group_get_spec (g : Group) (objectName : String) :
    (Group.get g objectName = none ↔ ∀ p ∈ g.objects, p.1 ≠ objectName) ∧
    (∀ (i : ℕ) (p : String × Obj), g.objects[i]? = some p → p.1 = objectName →
      (∀ (j : ℕ) (q : String × Obj), j < i → g.objects[j]? = some q →
        q.1 ≠ objectName) →
      Group.get g objectName = some p.2) :=
  ⟨getFirst_none_iff objectName g.objects,
   fun i p hp hname hbefore =>
     getFirst_first_match objectName g.objects i p hp hname hbefore⟩

/-- A group with two children sharing the name "ok" (names need not be unique). -/
def dupNameGroup : Group :=
  { gid := 0
    objects :=
      [("a", { id := 1, m_Parent := some 0, initObservedParent := some (some 0) }),
       ("ok", { id := 2, m_Parent := some 0, initObservedParent := some (some 0) }),
       ("ok", { id := 3, m_Parent := some 0, initObservedParent := some (some 0) })]
    nextId := 4 }

/-- Witness for amended claim C3: on `dupNameGroup`, `get "ok"` returns the first
of the two children named "ok" (the one with id 2). -/
theorem group_get_spec_witness :
    Group.get dupNameGroup "ok" =
      some { id := 2, m_Parent := some 0, initObservedParent := some (some 0) } :=
  (group_get_spec dupNameGroup "ok").2 1
    ("ok", { id := 2, m_Parent := some 0, initObservedParent := some (some 0) })
    rfl rfl (by
      intro j q hj hq
      interval_cases j
      simp only [dupNameGroup, List.getElem?_cons_zero, Option.some.injEq] at hq
      subst hq
      decide)

/-- Claim C8: `add` appends the new widget (under the given name) at the end of
the child sequence, assigns its parent back-reference before running
`initialize()` (so the hook observes `some g.gid`), and — given that every live
child's id is below the allocation counter — returns an identity distinct from
every existing child's, names notwithstanding; the counter invariant is
preserved for future calls. -/
theorem group_add_spec (g : Group) (objectName : String)
    (hInv : ∀ p ∈ g.objects, p.2.id < g.nextId) :
    (g.add objectName).1.objects =
      g.objects ++ [(objectName, (g.add objectName).2)] ∧
    (g.add objectName).2.m_Parent = some g.gid ∧
    (g.add objectName).2.initObservedParent = some (some g.gid) ∧
    (∀ p ∈ g.objects, p.2.id ≠ (g.add objectName).2.id) ∧
    (∀ p ∈ (g.add objectName).1.objects, p.2.id < (g.add objectName).1.nextId) := by
  refine ⟨rfl, rfl, rfl, ?_, ?_⟩
  · intro p hp
    exact Nat.ne_of_lt (hInv p hp)
  · intro p hp
    rw [Group.add] at hp
    simp only [List.mem_append, List.mem_singleton] at hp
    rcases hp with hp | hp
    · exact Nat.lt_succ_of_lt (hInv p hp)
    · subst hp
      exact Nat.lt_succ_self _

/-- Witness for claim C8: adding "ok" to `dupNameGroup` (which already holds ids
1, 2, 3 below the counter 4) yields a widget whose parent was visible to its
initialize hook and whose identity differs from every existing child's. -/
theorem group_add_spec_witness :
    (∀ p ∈ dupNameGroup.objects, p.2.id < dupNameGroup.nextId) ∧
      (dupNameGroup.add "ok").2.m_Parent = some dupNameGroup.gid ∧
      (∀ p ∈ dupNameGroup.objects, p.2.id ≠ (dupNameGroup.add "ok").2.id) :=
  ⟨by decide,
   (group_add_spec dupNameGroup "ok" (by decide)).2.1,
   (group_add_spec dupNameGroup "ok" (by decide)).2.2.2.1⟩

/-- Claim C9: the by-handle `copy` appends a clone of the source widget under the
new name and returns it, but — unlike `add` — neither re-assigns the clone's
parent back-reference to this group nor invokes `initialize()`: the clone keeps
the parent pointer and the initialization record copied from the source, so in
particular a source parented elsewhere yields a clone not parented to `g`. -/
theorem group_copy_spec (g : Group) (oldObject : Obj) (newObjectName : String)
    (hP : oldObject.m_Parent ≠ some g.gid) :
    (g.copy oldObject newObjectName).1.objects =
      g.objects ++ [(newObjectName, (g.copy oldObject newObjectName).2)] ∧
    (g.copy oldObject newObjectName).2.m_Parent = oldObject.m_Parent ∧
    (g.copy oldObject newObjectName).2.m_Parent ≠ some g.gid ∧
    (g.copy oldObject newObjectName).2.initObservedParent =
      oldObject.initObservedParent :=
  ⟨rfl, rfl, hP, rfl⟩

/-- Witness for claim C9: copying into `dupNameGroup` (gid 0) a widget parented
to a different group (gid 7) leaves the clone parented to 7, and its
initialization record untouched. -/
theorem group_copy_spec_witness :
    Obj.m_Parent { id := 9, m_Parent := some 7, initObservedParent := none } ≠
        some dupNameGroup.gid ∧
      (dupNameGroup.copy { id := 9, m_Parent := some 7, initObservedParent := none }
          "c").2.m_Parent =
        Obj.m_Parent { id := 9, m_Parent := some 7, initObservedParent := none } ∧
      (dupNameGroup.copy { id := 9, m_Parent := some 7, initObservedParent := none }
          "c").2.initObservedParent = none :=
  ⟨by decide,
   (group_copy_spec dupNameGroup { id := 9, m_Parent := some 7, initObservedParent := none }
      "c" (by decide)).2.1,
   (group_copy_spec dupNameGroup { id := 9, m_Parent := some 7, initObservedParent := none }
      "c" (by decide)).2.2.2⟩

/-! ## ChildWindow (`src/src/TGUI/ChildWindow.cpp`)

The event-handling state of a `ChildWindow` and of its owned close `Button`,
over exact rationals.  The widget transform is a translation by the widget's
position (no scaling is applied to the window itself), so the title-bar test
`getTransform().transformRect(FloatRect(0, 0, getSize().x, m_TitleBarHeight))
.contains(x, y)` becomes a half-open rectangle test at the window position. -/

/-- One of the `sf::Event` types `ChildWindow::handleEvent` distinguishes;
`other` covers every event type that falls through the if/else-if chain. -/
inductive Event
  | mouseMoved
  | mouseButtonPressed
  | mouseButtonReleased
  | other
deriving DecidableEq, Repr

/-- The externally visible calls `ChildWindow::handleEvent` makes, in program
order.  `delegateToPanel` is the final `Panel::handleEvent(event, x, y -
m_TitleBarHeight)`; the close path never reaches it. -/
inductive Action
  | addCallbackClosed
  | removeAllObjects
  | removeSelfFromParent
  | delegateToPanel
deriving DecidableEq, Repr

/-- The callback trigger posted on close (`Callback::closed`). -/
inductive Trigger
  | closed
deriving DecidableEq, Repr

/-- The close button as `ChildWindow` uses it.  `hitAt bx b2 mx my` is the
button's `mouseOnObject(mx, my)` after `setPosition(bx, b2)`.
Modelled from the spec: `Button`'s own code is not part of the sample; per the
hit-test interface (spec section 6) a widget exposes `containsPoint`, and per the
data model (section 3) it carries a mouse-down flag, set by a press inside its
hit region (`leftMousePressed`) — the only `Button` behaviour `ChildWindow`
relies on. `mouseMoved` marks hover. -/
structure Button where
  m_MouseDown : Bool
  m_MouseHover : Bool
  m_PositionX : ℚ
  m_PositionY : ℚ
  scaleX : ℚ
  scaleY : ℚ
  scaledSizeX : ℚ
  spriteOpacity : ℕ
  hitAt : ℚ → ℚ → ℚ → ℚ → Bool

/-- Which side of the title bar holds the close button. -/
inductive TitleLayout
  | layoutLeft
  | layoutRight
deriving DecidableEq, Repr

/-- The `ChildWindow` state its event handling and setters touch.  `children`
models the embedded Panel's object list (ids only); `id` is this window's own
identity inside its parent container. -/
structure ChildWindow where
  m_Loaded : Bool
  m_MouseDown : Bool
  m_DraggingPositionX : ℚ
  m_DraggingPositionY : ℚ
  positionX : ℚ
  positionY : ℚ
  sizeX : ℚ
  sizeY : ℚ
  m_TitleBarHeight : ℚ
  layout : TitleLayout
  distanceToSide : ℚ
  m_CloseButton : Button
  callbackID : ℕ
  m_Opacity : ℕ
  titleBarOpacity : ℕ
  m_LeftBorder : ℚ
  m_TopBorder : ℚ
  m_RightBorder : ℚ
  m_BottomBorder : ℚ
  m_TextureTitleBarSizeY : ℚ
  children : List ℕ
  id : ℕ

/-- The parent container, as the close path touches it.
Modelled from the spec: `Group::remove(OBJECT*)`'s body is not in the sample;
per the contract (spec section 4.1) it removes the exact widget, a no-op on an
unknown target, so it erases the first (only) occurrence of the handle.
`addCallback` appends to the parent's callback queue (section 6). -/
structure Parent where
  objects : List ℕ
  callbacks : List Trigger
deriving DecidableEq, Repr

/-- The title-bar test of `handleEvent`/`mouseOnObject`: the transformed
rectangle `(0, 0, getSize().x, m_TitleBarHeight)` contains the point. -/
def titleBarContains (cw : ChildWindow) (x y : ℚ) : Bool :=
  decide (cw.positionX ≤ x ∧ x < cw.positionX + cw.sizeX ∧
    cw.positionY ≤ y ∧ y < cw.positionY + cw.m_TitleBarHeight)

/-- The temporary close-button position `handleEvent` sets before hit-testing:
right layout puts it `distanceToSide` from the right edge, left layout
`distanceToSide` from the left; vertically centred via the button's scaled
width in both cases (as in the source). -/
def closeButtonPos (cw : ChildWindow) : ℚ × ℚ :=
  if cw.layout = TitleLayout.layoutRight then
    (cw.positionX + cw.sizeX - cw.distanceToSide - cw.m_CloseButton.scaledSizeX,
     cw.positionY + cw.m_TitleBarHeight / 2 - cw.m_CloseButton.scaledSizeX / 2)
  else
    (cw.positionX + cw.distanceToSide,
     cw.positionY + cw.m_TitleBarHeight / 2 - cw.m_CloseButton.scaledSizeX / 2)

/-- `ChildWindow::handleEvent(event, mouseX, mouseY)`.
`panelHandle` stands for `Panel::handleEvent`, which dispatches the event to the
embedded panel's children (it does not touch the window's own fields); the
returned trace lists the externally visible calls in program order. -/
def handleEvent (panelHandle : Event → ℚ → ℚ → List ℕ → List ℕ)
    (cw : ChildWindow) (parent : Parent) (event : Event) (mouseX mouseY : ℚ) :
    ChildWindow × Parent × List Action :=
  if cw.m_Loaded = false then (cw, parent, [])
  else match event with
  | Event.mouseMoved =>
    if cw.m_MouseDown = true then
      -- setPosition(position.x + (mouseX - position.x - m_DraggingPosition.x), ...)
      let cw := { cw with
        positionX := cw.positionX + (mouseX - cw.positionX - cw.m_DraggingPositionX),
        positionY := cw.positionY + (mouseY - cw.positionY - cw.m_DraggingPositionY) }
      ({ cw with
          children := panelHandle event mouseX (mouseY - cw.m_TitleBarHeight) cw.children },
       parent, [Action.delegateToPanel])
    else
      if titleBarContains cw mouseX mouseY then
        let p := closeButtonPos cw
        let b := { cw.m_CloseButton with m_PositionX := p.1, m_PositionY := p.2 }
        let b := if b.hitAt p.1 p.2 mouseX mouseY then { b with m_MouseHover := true } else b
        ({ cw with m_CloseButton := { b with m_PositionX := 0, m_PositionY := 0 } },
         parent, [])
      else
        ({ cw with
            children := panelHandle event mouseX (mouseY - cw.m_TitleBarHeight) cw.children },
         parent, [Action.delegateToPanel])
  | Event.mouseButtonPressed =>
    if titleBarContains cw mouseX mouseY then
      let p := closeButtonPos cw
      let b := { cw.m_CloseButton with m_PositionX := p.1, m_PositionY := p.2 }
      if b.hitAt p.1 p.2 mouseX mouseY then
        -- leftMousePressed: the press lands on the close button
        let b := { b with m_MouseDown := true }
        ({ cw with m_CloseButton := { b with m_PositionX := 0, m_PositionY := 0 } },
         parent, [])
      else
        ({ cw with
            m_MouseDown := true,
            m_DraggingPositionX := mouseX - cw.positionX,
            m_DraggingPositionY := mouseY - cw.positionY,
            m_CloseButton := { b with m_PositionX := 0, m_PositionY := 0 } },
         parent, [])
    else
      ({ cw with
          children := panelHandle event mouseX (mouseY - cw.m_TitleBarHeight) cw.children },
       parent, [Action.delegateToPanel])
  | Event.mouseButtonReleased =>
    -- `m_MouseDown = false` runs first in the source; none of the tests below
    -- read that flag, so the write is applied on each exit path instead
    if titleBarContains cw mouseX mouseY then
      let p := closeButtonPos cw
      let b := { cw.m_CloseButton with m_PositionX := p.1, m_PositionY := p.2 }
      if b.hitAt p.1 p.2 mouseX mouseY && b.m_MouseDown then
        -- the close button was clicked: optional callback, clear children, remove self
        let parent :=
          if cw.callbackID > 0 then
            { parent with callbacks := parent.callbacks ++ [Trigger.closed] }
          else parent
        let cw := { cw with m_MouseDown := false, children := [], m_CloseButton := b }
        let parent := { parent with objects := parent.objects.erase cw.id }
        (cw, parent,
         (if cw.callbackID > 0 then [Action.addCallbackClosed] else []) ++
           [Action.removeAllObjects, Action.removeSelfFromParent])
      else
        ({ cw with
            m_MouseDown := false,
            m_CloseButton := { b with m_PositionX := 0, m_PositionY := 0 } },
         parent, [])
    else
      ({ cw with
          m_MouseDown := false,
          children := panelHandle event mouseX (mouseY - cw.m_TitleBarHeight) cw.children },
       parent, [Action.delegateToPanel])
  | Event.other =>
    ({ cw with
        children := panelHandle event mouseX (mouseY - cw.m_TitleBarHeight) cw.children },
     parent, [Action.delegateToPanel])

/-- `ChildWindow::setTitlebarHeight(height)`: guarded by `m_Loaded`; stores the
height and rescales the close button by `height / titleBarTextureHeight`. -/
def setTitlebarHeight (cw : ChildWindow) (height : ℚ) : ChildWindow :=
  if cw.m_Loaded = false then cw
  else
    { cw with
      m_TitleBarHeight := height,
      m_CloseButton := { cw.m_CloseButton with
        scaleX := height / cw.m_TextureTitleBarSizeY,
        scaleY := height / cw.m_TextureTitleBarSizeY } }

/-- `ChildWindow::setTransparency(transparency)`: NOT guarded by `m_Loaded`;
stores the opacity and recolours the title-bar and close-button sprites. -/
def setTransparency (cw : ChildWindow) (transparency : ℕ) : ChildWindow :=
  { cw with
    m_Opacity := transparency,
    titleBarOpacity := transparency,
    m_CloseButton := { cw.m_CloseButton with spriteOpacity := transparency } }

/-- `ChildWindow::setBorders`: NOT guarded by `m_Loaded`. -/
def setBorders (cw : ChildWindow) (leftBorder topBorder rightBorder bottomBorder : ℚ) :
    ChildWindow :=
  { cw with
    m_LeftBorder := leftBorder,
    m_TopBorder := topBorder,
    m_RightBorder := rightBorder,
    m_BottomBorder := bottomBorder }

/-- `ChildWindow::mouseOnObject(x, y)`: `false` when unloaded; `true` on the
title bar; otherwise the embedded panel's test with the shifted ordinate
(`panelMouseOn` stands for `Panel::mouseOnObject`). -/
def mouseOnObject (panelMouseOn : ℚ → ℚ → Bool) (cw : ChildWindow) (x y : ℚ) : Bool :=
  if cw.m_Loaded = false then false
  else if titleBarContains cw x y then true
  else panelMouseOn x (y - cw.m_TitleBarHeight)

theorem handleEvent_press_on_close (f : Event → ℚ → ℚ → List ℕ → List ℕ)
    (cw : ChildWindow) (parent : Parent) (mx my : ℚ)
    (hL : cw.m_Loaded = true)
    (hT : titleBarContains cw mx my = true)
    (hB : cw.m_CloseButton.hitAt (closeButtonPos cw).1 (closeButtonPos cw).2 mx my = true) :
    handleEvent f cw parent Event.mouseButtonPressed mx my =
      ({ cw with m_CloseButton := { cw.m_CloseButton with
           m_MouseDown := true, m_PositionX := 0, m_PositionY := 0 } },
       parent, []) := by
  simp [handleEvent, hL, hT, hB]

theorem handleEvent_release_close (f : Event → ℚ → ℚ → List ℕ → List ℕ)
    (cw : ChildWindow) (parent : Parent) (mx my : ℚ)
    (hL : cw.m_Loaded = true)
    (hT : titleBarContains cw mx my = true)
    (hB : cw.m_CloseButton.hitAt (closeButtonPos cw).1 (closeButtonPos cw).2 mx my = true)
    (hD : cw.m_CloseButton.m_MouseDown = true) :
    handleEvent f cw parent Event.mouseButtonReleased mx my =
      ({ cw with
           m_MouseDown := false,
           children := [],
           m_CloseButton := { cw.m_CloseButton with
             m_PositionX := (closeButtonPos cw).1, m_PositionY := (closeButtonPos cw).2 } },
       { parent with
           callbacks := parent.callbacks ++
             (if cw.callbackID > 0 then [Trigger.closed] else []),
           objects := parent.objects.erase cw.id },
       (if cw.callbackID > 0 then [Action.addCallbackClosed] else []) ++
         [Action.removeAllObjects, Action.removeSelfFromParent]) := by
  by_cases hc : cw.callbackID > 0 <;>
    simp [handleEvent, hL, hT, hB, hD, hc]

/-- Claim C4: on a loaded child window, a press and a release both landing on the
close button trigger, in program order: a `closed` callback to the parent exactly
when `callbackID > 0`, removal of all the window's children, removal of the
window itself from its parent (after which the handler returns: the trace ends
there and the event is never delegated to the panel), and the parent's child
count decreases by exactly one. -/
theorem childwindow_close_sequence (f : Event → ℚ → ℚ → List ℕ → List ℕ)
    (cw : ChildWindow) (parent : Parent) (mx1 my1 mx2 my2 : ℚ)
    (hL : cw.m_Loaded = true)
    (hT1 : titleBarContains cw mx1 my1 = true)
    (hB1 : cw.m_CloseButton.hitAt (closeButtonPos cw).1 (closeButtonPos cw).2 mx1 my1 = true)
    (hT2 : titleBarContains cw mx2 my2 = true)
    (hB2 : cw.m_CloseButton.hitAt (closeButtonPos cw).1 (closeButtonPos cw).2 mx2 my2 = true)
    (hMem : cw.id ∈ parent.objects) :
    (handleEvent f (handleEvent f cw parent Event.mouseButtonPressed mx1 my1).1
        (handleEvent f cw parent Event.mouseButtonPressed mx1 my1).2.1
        Event.mouseButtonReleased mx2 my2).2.2 =
      (if cw.callbackID > 0 then [Action.addCallbackClosed] else []) ++
        [Action.removeAllObjects, Action.removeSelfFromParent] ∧
    (cw.callbackID > 0 →
      (handleEvent f (handleEvent f cw parent Event.mouseButtonPressed mx1 my1).1
          (handleEvent f cw parent Event.mouseButtonPressed mx1 my1).2.1
          Event.mouseButtonReleased mx2 my2).2.1.callbacks =
        parent.callbacks ++ [Trigger.closed]) ∧
    (cw.callbackID = 0 →
      (handleEvent f (handleEvent f cw parent Event.mouseButtonPressed mx1 my1).1
          (handleEvent f cw parent Event.mouseButtonPressed mx1 my1).2.1
          Event.mouseButtonReleased mx2 my2).2.1.callbacks = parent.callbacks) ∧
    (handleEvent f (handleEvent f cw parent Event.mouseButtonPressed mx1 my1).1
        (handleEvent f cw parent Event.mouseButtonPressed mx1 my1).2.1
        Event.mouseButtonReleased mx2 my2).1.children = [] ∧
    (handleEvent f (handleEvent f cw parent Event.mouseButtonPressed mx1 my1).1
        (handleEvent f cw parent Event.mouseButtonPressed mx1 my1).2.1
        Event.mouseButtonReleased mx2 my2).2.1.objects = parent.objects.erase cw.id ∧
    (handleEvent f (handleEvent f cw parent Event.mouseButtonPressed mx1 my1).1
        (handleEvent f cw parent Event.mouseButtonPressed mx1 my1).2.1
        Event.mouseButtonReleased mx2 my2).2.1.objects.length + 1 =
      parent.objects.length := by
  have herase : (parent.objects.erase cw.id).length = parent.objects.length - 1 :=
    List.length_erase_of_mem hMem
  have hpos : 0 < parent.objects.length := List.length_pos_of_mem hMem
  rw [handleEvent_press_on_close f cw parent mx1 my1 hL hT1 hB1]
  dsimp only
  rw [handleEvent_release_close f
    { cw with m_CloseButton := { cw.m_CloseButton with
        m_MouseDown := true, m_PositionX := 0, m_PositionY := 0 } }
    parent mx2 my2 hL hT2 hB2 rfl]
  dsimp only
  refine ⟨rfl, ?_, ?_, rfl, rfl, ?_⟩
  · intro hc
    rw [if_pos hc]
  · intro hc
    rw [hc]
    simp
  · omega

/-- Claim C5: on a loaded child window, a title-bar press outside the close
button records the dragging offset `(mx1 - x, my1 - y)` and sets the window's
mouse-down flag; a following move event repositions the window to exactly
`(mx2 - ox, my2 - oy)`; and in general every move event while the mouse-down
flag is set with recorded offset `(ox, oy)` places the window at the cursor
minus the offset. -/
theorem childwindow_drag_follows_cursor (f : Event → ℚ → ℚ → List ℕ → List ℕ)
    (cw : ChildWindow) (parent : Parent) (mx1 my1 mx2 my2 : ℚ)
    (hL : cw.m_Loaded = true)
    (hT : titleBarContains cw mx1 my1 = true)
    (hB : cw.m_CloseButton.hitAt (closeButtonPos cw).1 (closeButtonPos cw).2 mx1 my1 =
      false) :
    ((handleEvent f cw parent Event.mouseButtonPressed mx1 my1).1.m_MouseDown = true ∧
     (handleEvent f cw parent Event.mouseButtonPressed mx1 my1).1.m_DraggingPositionX =
       mx1 - cw.positionX ∧
     (handleEvent f cw parent Event.mouseButtonPressed mx1 my1).1.m_DraggingPositionY =
       my1 - cw.positionY) ∧
    ((handleEvent f (handleEvent f cw parent Event.mouseButtonPressed mx1 my1).1 parent
        Event.mouseMoved mx2 my2).1.positionX = mx2 - (mx1 - cw.positionX) ∧
     (handleEvent f (handleEvent f cw parent Event.mouseButtonPressed mx1 my1).1 parent
        Event.mouseMoved mx2 my2).1.positionY = my2 - (my1 - cw.positionY)) ∧
    (∀ (dw : ChildWindow) (mx my : ℚ), dw.m_Loaded = true → dw.m_MouseDown = true →
      (handleEvent f dw parent Event.mouseMoved mx my).1.positionX =
        mx - dw.m_DraggingPositionX ∧
      (handleEvent f dw parent Event.mouseMoved mx my).1.positionY =
        my - dw.m_DraggingPositionY) := by
  have hpress : handleEvent f cw parent Event.mouseButtonPressed mx1 my1 =
      ({ cw with
          m_MouseDown := true,
          m_DraggingPositionX := mx1 - cw.positionX,
          m_DraggingPositionY := my1 - cw.positionY,
          m_CloseButton := { cw.m_CloseButton with m_PositionX := 0, m_PositionY := 0 } },
       parent, []) := by
    simp [handleEvent, hL, hT, hB]
  have hmove : ∀ (dw : ChildWindow) (mx my : ℚ), dw.m_Loaded = true →
      dw.m_MouseDown = true →
      (handleEvent f dw parent Event.mouseMoved mx my).1.positionX =
        mx - dw.m_DraggingPositionX ∧
      (handleEvent f dw parent Event.mouseMoved mx my).1.positionY =
        my - dw.m_DraggingPositionY := by
    intro dw mx my hdL hdD
    constructor
    · simp [handleEvent, hdL, hdD]
      try ring
    · simp [handleEvent, hdL, hdD]
      try ring
  refine ⟨?_, ?_, hmove⟩
  · rw [hpress]
    exact ⟨rfl, rfl, rfl⟩
  · rw [hpress]
    dsimp only
    constructor
    · rw [(hmove { cw with
          m_MouseDown := true,
          m_DraggingPositionX := mx1 - cw.positionX,
          m_DraggingPositionY := my1 - cw.positionY,
          m_CloseButton := { cw.m_CloseButton with m_PositionX := 0, m_PositionY := 0 } }
        mx2 my2 hL rfl).1]
    · rw [(hmove { cw with
          m_MouseDown := true,
          m_DraggingPositionX := mx1 - cw.positionX,
          m_DraggingPositionY := my1 - cw.positionY,
          m_CloseButton := { cw.m_CloseButton with m_PositionX := 0, m_PositionY := 0 } }
        mx2 my2 hL rfl).2]

/-- A close button whose hit test never fires (the cursor stays off it). -/
def missButton : Button :=
  { m_MouseDown := false, m_MouseHover := false, m_PositionX := 0, m_PositionY := 0
    scaleX := 1, scaleY := 1, scaledSizeX := 10, spriteOpacity := 255
    hitAt := fun _ _ _ _ => false }

/-- A close button whose hit test always fires (the cursor is on it). -/
def onButton : Button :=
  { m_MouseDown := false, m_MouseHover := false, m_PositionX := 0, m_PositionY := 0
    scaleX := 1, scaleY := 1, scaledSizeX := 10, spriteOpacity := 255
    hitAt := fun _ _ _ _ => true }

/-- A loaded child window at position (10, 10) with a 20-high title bar. -/
def demoWindow : ChildWindow :=
  { m_Loaded := true, m_MouseDown := false
    m_DraggingPositionX := 0, m_DraggingPositionY := 0
    positionX := 10, positionY := 10, sizeX := 200, sizeY := 150
    m_TitleBarHeight := 20, layout := TitleLayout.layoutRight, distanceToSide := 5
    m_CloseButton := missButton, callbackID := 1
    m_Opacity := 255, titleBarOpacity := 255
    m_LeftBorder := 0, m_TopBorder := 0, m_RightBorder := 0, m_BottomBorder := 0
    m_TextureTitleBarSizeY := 20, children := [3, 5], id := 7 }

/-- The same window with the cursor landing on the close button. -/
def demoCloseWindow : ChildWindow := { demoWindow with m_CloseButton := onButton }

/-- The parent container holding the demo window (id 7) and a sibling (id 9). -/
def demoParent : Parent := { objects := [7, 9], callbacks := [] }

/-- A panel dispatcher that leaves the child list unchanged. -/
def noPanel : Event → ℚ → ℚ → List ℕ → List ℕ := fun _ _ _ cs => cs

/-- Witness for claim C4: on `demoCloseWindow` (callbackID 1, id 7, parent holding
[7, 9]), press-then-release on the close button posts the callback, removes the
children, removes the window, and shrinks the parent from 2 children to 1. -/
theorem childwindow_close_sequence_witness :
    (handleEvent noPanel
        (handleEvent noPanel demoCloseWindow demoParent Event.mouseButtonPressed 15 15).1
        (handleEvent noPanel demoCloseWindow demoParent Event.mouseButtonPressed 15 15).2.1
        Event.mouseButtonReleased 15 15).2.2 =
      [Action.addCallbackClosed, Action.removeAllObjects, Action.removeSelfFromParent] ∧
    (handleEvent noPanel
        (handleEvent noPanel demoCloseWindow demoParent Event.mouseButtonPressed 15 15).1
        (handleEvent noPanel demoCloseWindow demoParent Event.mouseButtonPressed 15 15).2.1
        Event.mouseButtonReleased 15 15).2.1.objects.length + 1 =
      demoParent.objects.length := by
  have h := childwindow_close_sequence noPanel demoCloseWindow demoParent 15 15 15 15
    rfl (by norm_num [titleBarContains, demoCloseWindow, demoWindow]) rfl
    (by norm_num [titleBarContains, demoCloseWindow, demoWindow]) rfl
    (by norm_num [demoCloseWindow, demoWindow, demoParent])
  exact ⟨h.1, h.2.2.2.2.2⟩

/-- Witness for claim C5: `demoWindow` sits at (10, 10); a title-bar press at
(15, 15) then a move to (40, 48) puts the window at (35, 43): the offset (5, 5)
stays under the cursor. -/
theorem childwindow_drag_follows_cursor_witness :
    (handleEvent noPanel
        (handleEvent noPanel demoWindow demoParent Event.mouseButtonPressed 15 15).1
        demoParent Event.mouseMoved 40 48).1.positionX = 35 ∧
    (handleEvent noPanel
        (handleEvent noPanel demoWindow demoParent Event.mouseButtonPressed 15 15).1
        demoParent Event.mouseMoved 40 48).1.positionY = 43 := by
  have h := childwindow_drag_follows_cursor noPanel demoWindow demoParent 15 15 40 48
    rfl (by norm_num [titleBarContains, demoWindow]) rfl
  constructor
  · rw [h.2.1.1]
    norm_num [demoWindow]
  · rw [h.2.1.2]
    norm_num [demoWindow]

/-- The demo window before its load ran. -/
def unloadedWindow : ChildWindow := { demoWindow with m_Loaded := false }

/-- Claim C7 is false as stated: `setTransparency` is not guarded by the loaded
flag, so it mutates an unloaded window (here from opacity 255 to 128). -/
theorem childwindow_unloaded_not_noop_counterexample :
    unloadedWindow.m_Loaded = false ∧
    unloadedWindow.m_Opacity = 255 ∧
    (setTransparency unloadedWindow 128).m_Opacity = 128 := ⟨rfl, rfl, rfl⟩

/-- Claim C7 as amended: on a window whose loaded flag is false, the operations
guarded by that flag are silent no-ops — `handleEvent` changes nothing and makes
no calls, `setTitlebarHeight` returns the state unchanged, and `mouseOnObject`
answers false — but `setTransparency` and `setBorders` are not guarded and mutate
the window even when it is unloaded. -/
theorem childwindow_unloaded_guards (f : Event → ℚ → ℚ → List ℕ → List ℕ)
    (pm : ℚ → ℚ → Bool) (cw : ChildWindow) (parent : Parent) (event : Event)
    (mx my hh x y : ℚ) (t : ℕ) (ba bb bc bd : ℚ)
    (hU : cw.m_Loaded = false) :
    handleEvent f cw parent event mx my = (cw, parent, []) ∧
    setTitlebarHeight cw hh = cw ∧
    mouseOnObject pm cw x y = false ∧
    (setTransparency cw t).m_Opacity = t ∧
    (setTransparency cw t).m_CloseButton.spriteOpacity = t ∧
    (setBorders cw ba bb bc bd).m_LeftBorder = ba := by
  refine ⟨?_, ?_, ?_, rfl, rfl, rfl⟩
  · simp [handleEvent, hU]
  · simp [setTitlebarHeight, hU]
  · simp [mouseOnObject, hU]

/-- Witness for amended claim C7: the unloaded demo window ignores a press event
and a title-bar-height change, and reports the mouse as not on it. -/
theorem childwindow_unloaded_guards_witness :
    unloadedWindow.m_Loaded = false ∧
      (handleEvent noPanel unloadedWindow demoParent Event.mouseButtonPressed 15 15 =
          (unloadedWindow, demoParent, []) ∧
        setTitlebarHeight unloadedWindow 30 = unloadedWindow ∧
        mouseOnObject (fun _ _ => false) unloadedWindow 15 15 = false ∧
        (setTransparency unloadedWindow 128).m_Opacity = 128 ∧
        (setTransparency unloadedWindow 128).m_CloseButton.spriteOpacity = 128 ∧
        (setBorders unloadedWindow 1 2 3 4).m_LeftBorder = 1) :=
  ⟨rfl, childwindow_unloaded_guards noPanel (fun _ _ => false) unloadedWindow demoParent
    Event.mouseButtonPressed 15 15 30 15 15 128 1 2 3 4 rfl⟩

end TGUI

